import Mathlib

/-!
Verification of the boxlite runtime orchestration layer.

Shallow embedding of the Rust sources of `warjiang/boxlite`:
* `boxlite/src/litebox/state.rs` — box lifecycle status and state machine;
* `boxlite/src/db/boxes.rs` — persistent box store, reboot detection;
* `boxlite/src/litebox/manager.rs` — name/ID/prefix lookup, add/remove;
* `boxlite/src/runtime/rt_impl.rs` — runtime `create`, cache, recovery;
* `boxlite/src/lock/memory.rs`, `boxlite/src/lock/file.rs` — lock managers;
* `boxlite/src/vmm/krun/engine.rs` — guest argument transport translation;
* `boxlite/src/litebox/box_impl.rs` — `start` / `stop` handle operations.

Machine integers are modelled as `Nat`, Rust `Option`/`Result` as
`Option`/`Except`, database tables as association lists, and the wall clock
(`Utc::now()`) as an explicit `now : Nat` argument.
-/

namespace Boxlite

/-- Error type mirroring `boxlite_shared::errors::BoxliteError` (the variants
the embedded operations construct). Each variant carries its message string. -/
inductive BoxliteError where
  | invalidState (msg : String)
  | invalidArgument (msg : String)
  | notFound (msg : String)
  | database (msg : String)
  | internal (msg : String)
  | lock (msg : String)
  deriving Repr, DecidableEq

/-- Lifecycle status of a box, from `BoxStatus` in `litebox/state.rs`. -/
inductive BoxStatus where
  | unknown
  | starting
  | running
  | stopping
  | stopped
  deriving Repr, DecidableEq, Fintype

namespace BoxStatus

/-- `BoxStatus::is_active`: `matches!(self, Starting | Running)`. -/
def is_active : BoxStatus → Bool
  | .starting => true
  | .running => true
  | _ => false

/-- `BoxStatus::can_transition_to`, transcribed from the `matches!` table in
`litebox/state.rs`. -/
def can_transition_to : BoxStatus → BoxStatus → Bool
  | .unknown, _ => true
  | .starting, .running => true
  | .starting, .stopped => true
  | .starting, .unknown => true
  | .running, .stopping => true
  | .running, .stopped => true
  | .running, .unknown => true
  | .stopping, .stopped => true
  | .stopping, .unknown => true
  | .stopped, .starting => true
  | .stopped, .unknown => true
  | _, _ => false

/-- `BoxStatus::as_str`: database string form. -/
def as_str : BoxStatus → String
  | .unknown => "unknown"
  | .starting => "starting"
  | .running => "running"
  | .stopping => "stopping"
  | .stopped => "stopped"

/-- `FromStr for BoxStatus`: parse the database string form. Rust returns
`Result<Self, ()>`; we model the error by `none`. -/
def from_str (s : String) : Option BoxStatus :=
  if s = "unknown" then some .unknown
  else if s = "starting" then some .starting
  else if s = "running" then some .running
  else if s = "stopping" then some .stopping
  else if s = "stopped" then some .stopped
  else none

end BoxStatus

/-- Dynamic box state, from `BoxState` in `litebox/state.rs`. The
`last_updated : DateTime<Utc>` field is modelled as a `Nat` timestamp and
every mutator takes the current time as an explicit argument. -/
structure BoxState where
  status : BoxStatus
  pid : Option Nat
  container_id : Option String
  last_updated : Nat
  deriving Repr, DecidableEq

namespace BoxState

/-- `BoxState::new`: initial state for a new box. -/
def new (now : Nat) : BoxState :=
  { status := .starting, pid := none, container_id := none, last_updated := now }

/-- `BoxState::transition_to`: validated state transition. On error the Rust
code returns before mutating, so the caller's state is unchanged; here the
error branch simply does not produce a new state. -/
def transition_to (s : BoxState) (new_status : BoxStatus) (now : Nat) :
    Except BoxliteError BoxState :=
  if ¬ s.status.can_transition_to new_status then
    .error (.invalidState
      ("Cannot transition from " ++ s.status.as_str ++ " to " ++ new_status.as_str))
  else
    .ok { s with status := new_status, last_updated := now }

/-- `BoxState::force_status`: set status without validation. -/
def force_status (s : BoxState) (status : BoxStatus) (now : Nat) : BoxState :=
  { s with status := status, last_updated := now }

/-- `BoxState::set_status`: alias for `force_status`. -/
def set_status (s : BoxState) (status : BoxStatus) (now : Nat) : BoxState :=
  s.force_status status now

/-- `BoxState::set_pid`: set PID and update timestamp. -/
def set_pid (s : BoxState) (pid : Option Nat) (now : Nat) : BoxState :=
  { s with pid := pid, last_updated := now }

/-- `BoxState::mark_crashed`: crashed VMs become `Stopped` with PID cleared. -/
def mark_crashed (s : BoxState) (now : Nat) : BoxState :=
  { s with status := .stopped, pid := none, last_updated := now }

/-- `BoxState::reset_for_reboot`: active boxes become `Stopped`; PID is
cleared unconditionally. -/
def reset_for_reboot (s : BoxState) (now : Nat) : BoxState :=
  { s with
    status := if s.status.is_active then .stopped else s.status
    pid := none
    last_updated := now }

end BoxState

/-- Legal-transition table exactly as the claim (spec §4.5) words it:
`Unknown` goes to any status, `Starting` only to `Running`/`Stopped`/
`Unknown`, `Running` only to `Stopping`/`Stopped`/`Unknown`, `Stopping` only
to `Stopped`/`Unknown`, and `Stopped` only to `Starting`/`Unknown`. Stated
from the spec's words to be compared with `can_transition_to` from the
source. -/
def specLegalTransition (s t : BoxStatus) : Prop :=
  match s with
  | .unknown => True
  | .starting => t = .running ∨ t = .stopped ∨ t = .unknown
  | .running => t = .stopping ∨ t = .stopped ∨ t = .unknown
  | .stopping => t = .stopped ∨ t = .unknown
  | .stopped => t = .starting ∨ t = .unknown

instance (s t : BoxStatus) : Decidable (specLegalTransition s t) := by
  unfold specLegalTransition
  cases s <;> infer_instance

/-- The source's transition table and the spec's table agree (helper for C1). -/
theorem can_transition_iff_spec (s t : BoxStatus) :
    s.can_transition_to t = true ↔ specLegalTransition s t := by
  revert s t; decide

/-- C1: `can_transition_to` returns true precisely on the pairs admitted by
the legal-transition table, and `transition_to` sets the status (updating the
timestamp) exactly when the table allows it, otherwise it returns an
`InvalidState` error and produces no mutated state. -/
theorem claim_C1 :
    (∀ s t : BoxStatus, s.can_transition_to t = true ↔ specLegalTransition s t) ∧
    (∀ (st : BoxState) (t : BoxStatus) (now : Nat),
      (specLegalTransition st.status t →
        st.transition_to t now = .ok { st with status := t, last_updated := now }) ∧
      (¬ specLegalTransition st.status t →
        ∃ msg, st.transition_to t now = .error (.invalidState msg))) := by
  refine ⟨can_transition_iff_spec, ?_⟩
  intro st t now
  constructor
  · intro h
    have hc : st.status.can_transition_to t = true :=
      (can_transition_iff_spec st.status t).2 h
    simp [BoxState.transition_to, hc]
  · intro h
    have hc : ¬ st.status.can_transition_to t = true := fun hh =>
      h ((can_transition_iff_spec st.status t).1 hh)
    refine ⟨"Cannot transition from " ++ st.status.as_str ++ " to " ++ t.as_str, ?_⟩
    simp [BoxState.transition_to, hc]

/-- Witness for C1 at concrete inputs: `Starting → Running` is legal and taken;
`Stopped → Running` is rejected with an `InvalidState` error. -/
theorem claim_C1_witness :
    ((BoxState.new 0).transition_to .running 1 =
      .ok { BoxState.new 0 with status := .running, last_updated := 1 }) ∧
    (∃ msg, ((BoxState.new 0).set_status .stopped 0).transition_to .running 1 =
      .error (.invalidState msg)) := by
  constructor
  · exact (claim_C1.2 (BoxState.new 0) .running 1).1 (by decide)
  · exact (claim_C1.2 ((BoxState.new 0).set_status .stopped 0) .running 1).2 (by decide)

/-- C10: parsing the database string form round-trips (`from_str (as_str s) =
some s`), and every string other than the five canonical lowercase names
fails to parse. -/
theorem claim_C10 :
    (∀ s : BoxStatus, BoxStatus.from_str s.as_str = some s) ∧
    (∀ str : String,
      str ∉ ["unknown", "starting", "running", "stopping", "stopped"] →
      BoxStatus.from_str str = none) := by
  constructor
  · intro s; cases s <;> rfl
  · intro str h
    simp only [List.mem_cons, List.mem_singleton, not_or] at h
    obtain ⟨h1, h2, h3, h4, h5⟩ := h
    simp [BoxStatus.from_str, h1, h2, h3, h4, h5]

/-- Witness for C10 at concrete inputs: `"running"` round-trips and
`"invalid"` fails to parse. -/
theorem claim_C10_witness :
    BoxStatus.from_str (BoxStatus.running.as_str) = some .running ∧
    BoxStatus.from_str "invalid" = none := by
  exact ⟨claim_C10.1 .running, claim_C10.2 "invalid" (by decide)⟩

/-- Record of the `alive` table (`id = 1` row): `boot_id` and `started_at`,
from `db/boxes.rs`. -/
structure AliveRecord where
  boot_id : String
  started_at : Nat
  deriving Repr, DecidableEq

/-- `BoxStore::check_and_update_boot`: compares the stored alive record's
boot id with the currently observed one (`get_boot_id()`, passed in as
`current_boot_id`), then upserts the alive record. Returns the `is_reboot`
flag paired with the alive record the upsert writes. An absent record is
treated as "first run ever - not a reboot" (comment in the source). -/
def check_and_update_boot (existing : Option AliveRecord)
    (current_boot_id : String) (now : Nat) : Bool × AliveRecord :=
  let is_reboot :=
    match existing with
    | none => false
    | some r => r.boot_id != current_boot_id
  (is_reboot, { boot_id := current_boot_id, started_at := now })

/-- C3 counterexample: with no stored alive record, the claim demands `true`
(reboot signalled), but `check_and_update_boot` returns `false`. -/
theorem claim_C3_counterexample :
    (check_and_update_boot none "boot-b" 5).1 = false := by
  rfl

/-- C3 (amended): `check_and_update_boot` returns true exactly when a stored
alive record exists and its boot id differs from the currently observed one
(an absent record is a first run and returns false), and in all cases it
writes the alive record with the current boot id. -/
theorem claim_C3 :
    ∀ (existing : Option AliveRecord) (cur : String) (now : Nat),
      ((check_and_update_boot existing cur now).1 = true ↔
        ∃ r, existing = some r ∧ r.boot_id ≠ cur) ∧
      (check_and_update_boot existing cur now).2 =
        { boot_id := cur, started_at := now } := by
  intro existing cur now
  refine ⟨?_, rfl⟩
  cases existing with
  | none => simp [check_and_update_boot]
  | some r =>
    simp [check_and_update_boot, bne_iff_ne]

/-- Witness for C3 (amended) at a concrete input: a stored record with a
different boot id signals a reboot and the record is rewritten. -/
theorem claim_C3_witness :
    (check_and_update_boot (some { boot_id := "boot-a", started_at := 0 }) "boot-b" 7).1
      = true ∧
    (check_and_update_boot (some { boot_id := "boot-a", started_at := 0 }) "boot-b" 7).2
      = { boot_id := "boot-b", started_at := 7 } :=
  ⟨(claim_C3 (some { boot_id := "boot-a", started_at := 0 }) "boot-b" 7).1.2
      ⟨{ boot_id := "boot-a", started_at := 0 }, rfl, by decide⟩,
    (claim_C3 (some { boot_id := "boot-a", started_at := 0 }) "boot-b" 7).2⟩

/-- The state-mutating operations exactly as claim C4 lists them, each applied
as `BoxState` mutator from `litebox/state.rs`; `stopSeq` is the two-step
update `BoxImpl::stop` performs (`set_status(Stopped); set_pid(None)`). A
failed `transition_to` leaves the state unchanged, as in the source. -/
inductive StateOp where
  | transitionTo (t : BoxStatus)
  | setStatus (t : BoxStatus)
  | setPid (p : Option Nat)
  | markCrashed
  | resetForReboot
  | stopSeq
  deriving Repr, DecidableEq

/-- Apply one of claim C4's operations to a `BoxState`. -/
def applyStateOp (op : StateOp) (now : Nat) (s : BoxState) : BoxState :=
  match op with
  | .transitionTo t =>
    match s.transition_to t now with
    | .ok s' => s'
    | .error _ => s
  | .setStatus t => s.set_status t now
  | .setPid p => s.set_pid p now
  | .markCrashed => s.mark_crashed now
  | .resetForReboot => s.reset_for_reboot now
  | .stopSeq => (s.set_status .stopped now).set_pid none now

/-- States reachable from the initial state by the operations claim C4 lists. -/
inductive ClaimReachable : BoxState → Prop where
  | init (now : Nat) : ClaimReachable (BoxState.new now)
  | step (s : BoxState) (op : StateOp) (now : Nat) :
      ClaimReachable s → ClaimReachable (applyStateOp op now s)

/-- C4 counterexample: `set_pid(Some 1)` followed by the free-standing
`set_status(Stopped)` — both operations on the claim's list — reaches a state
with `status = Stopped` and `pid = Some 1`, violating the claimed invariant. -/
theorem claim_C4_counterexample :
    ClaimReachable (((BoxState.new 0).set_pid (some 1) 1).set_status .stopped 2) ∧
    (((BoxState.new 0).set_pid (some 1) 1).set_status .stopped 2).status = .stopped ∧
    (((BoxState.new 0).set_pid (some 1) 1).set_status .stopped 2).pid = some 1 := by
  refine ⟨?_, rfl, rfl⟩
  exact ClaimReachable.step _ (.setStatus .stopped) 2
    (ClaimReachable.step _ (.setPid (some 1)) 1 (ClaimReachable.init 0))

/-- The state-update sequences the runtime actually performs (outside tests):
`startSeq` is `set_pid(Some pid); set_status(Running)` from
`box_impl.rs`/`vmm_spawn.rs`; `stopSeq` is `set_status(Stopped);
set_pid(None)` from `BoxImpl::stop` and force-remove; `markCrashed` and
`resetForReboot` are the corresponding `BoxState` methods; `recoverStopNoPid`
is recovery's `set_status(Stopped)`, which the source guards by `pid` being
absent and the status being active. -/
inductive RuntimeStateOp where
  | startSeq (pid : Nat)
  | stopSeq
  | markCrashed
  | resetForReboot
  | recoverStopNoPid
  deriving Repr, DecidableEq

/-- Apply one of the runtime's state-update sequences. -/
def applyRuntimeOp (op : RuntimeStateOp) (now : Nat) (s : BoxState) : BoxState :=
  match op with
  | .startSeq pid => (s.set_pid (some pid) now).set_status .running now
  | .stopSeq => (s.set_status .stopped now).set_pid none now
  | .markCrashed => s.mark_crashed now
  | .resetForReboot => s.reset_for_reboot now
  | .recoverStopNoPid =>
    if s.pid = none ∧ s.status.is_active then s.set_status .stopped now else s

/-- States reachable from the initial state by the runtime's update
sequences. -/
inductive RuntimeReachable : BoxState → Prop where
  | init (now : Nat) : RuntimeReachable (BoxState.new now)
  | step (s : BoxState) (op : RuntimeStateOp) (now : Nat) :
      RuntimeReachable s → RuntimeReachable (applyRuntimeOp op now s)

/-- C4 (amended): state/PID coherence holds for the mutation sequences the
runtime actually performs — the start-completion sequence, the stop sequence,
`mark_crashed`, `reset_for_reboot`, and recovery's guarded
`set_status(Stopped)`: every reachable state with `status = Stopped` has
`pid = None`. (The free-standing `set_status`/`set_pid`/`transition_to`
operations of the original claim break the invariant, see the
counterexample.) -/
theorem claim_C4 (s : BoxState) (h : RuntimeReachable s) :
    s.status = .stopped → s.pid = none := by
  induction h with
  | init now =>
    intro hst
    simp [BoxState.new] at hst
  | step s op now hs ih =>
    cases op with
    | startSeq pid =>
      intro hst
      simp [applyRuntimeOp, BoxState.set_pid, BoxState.set_status,
        BoxState.force_status] at hst
    | stopSeq =>
      intro _
      simp [applyRuntimeOp, BoxState.set_pid, BoxState.set_status,
        BoxState.force_status]
    | markCrashed =>
      intro _
      simp [applyRuntimeOp, BoxState.mark_crashed]
    | resetForReboot =>
      intro _
      simp [applyRuntimeOp, BoxState.reset_for_reboot]
    | recoverStopNoPid =>
      by_cases hc : s.pid = none ∧ s.status.is_active
      · intro _
        simp [applyRuntimeOp, hc, BoxState.set_status, BoxState.force_status]
      · simpa [applyRuntimeOp, hc] using ih

/-- Witness for C4 (amended): after the concrete stop sequence from the
initial state, the PID is cleared. -/
theorem claim_C4_witness :
    (applyRuntimeOp .stopSeq 1 (BoxState.new 0)).pid = none :=
  claim_C4 _ (RuntimeReachable.step _ .stopSeq 1 (RuntimeReachable.init 0)) rfl

/-- Modelled from the spec: `BoxStatus::can_start` is called by
`BoxImpl::start` in `box_impl.rs` but its definition is not among the sources
under verification. Spec §4.5: `can_start = Configured | Stopped`, where
"Configured" means persisted with `Starting` but never spawned and is treated
as `Starting` for transitions. -/
def BoxStatus.can_start : BoxStatus → Bool
  | .starting => true
  | .stopped => true
  | _ => false

/-- Outcome marker for the `start()` gate: either the box is already running
(no-op) or the call proceeds to lazy `LiveState` initialization. -/
inductive StartAction where
  | noop
  | runInit
  deriving Repr, DecidableEq

/-- Gate of `BoxImpl::start` from `box_impl.rs`: reject invalidated handles,
return success without touching state when already `Running`, reject
non-startable statuses, otherwise proceed to lazy initialization (represented
by the `runInit` marker; no state is mutated before that point). -/
def BoxImpl.start (is_shutdown : Bool) (s : BoxState) :
    Except BoxliteError (BoxState × StartAction) :=
  if is_shutdown then
    .error (.invalidState
      "Handle invalidated after stop(). Use runtime.get() to get a new handle.")
  else if s.status = .running then
    .ok (s, .noop)
  else if ¬ s.status.can_start then
    .error (.invalidState ("Cannot start box in " ++ s.status.as_str ++ " state"))
  else
    .ok (s, .runInit)

/-- C9: on a handle that has not been stopped, `start()` on a `Running` box
returns success with the state unchanged and no initialization triggered (so
a second `start()` after a successful one is a no-op), and `start()` on a
`Stopping` box fails with an `InvalidState` error without touching state. -/
theorem claim_C9 :
    ∀ s : BoxState,
      (s.status = .running → BoxImpl.start false s = .ok (s, .noop)) ∧
      (s.status = .stopping →
        ∃ msg, BoxImpl.start false s = .error (.invalidState msg)) := by
  intro s
  constructor
  · intro h
    simp [BoxImpl.start, h]
  · intro h
    refine ⟨"Cannot start box in " ++ s.status.as_str ++ " state", ?_⟩
    simp [BoxImpl.start, h, BoxStatus.can_start]

/-- Witness for C9 at concrete inputs: a running box's state and a stopping
box's state. -/
theorem claim_C9_witness :
    (BoxImpl.start false ((BoxState.new 0).set_status .running 1) =
      .ok ((BoxState.new 0).set_status .running 1, .noop)) ∧
    (∃ msg, BoxImpl.start false ((BoxState.new 0).set_status .stopping 1) =
      .error (.invalidState msg)) :=
  ⟨(claim_C9 ((BoxState.new 0).set_status .running 1)).1 rfl,
    (claim_C9 ((BoxState.new 0).set_status .stopping 1)).2 rfl⟩

/-- A row of the box store: the `box_config` columns the embedded operations
read (`id`, `name`) joined with the `box_state` row, as `BoxStore` queries
them in `db/boxes.rs`. `list_all`'s `ORDER BY created_at DESC` is modelled by
the list order of the store. -/
structure StoreEntry where
  id : String
  name : Option String
  state : BoxState
  deriving Repr, DecidableEq

/-- `BoxStore::load`: look a box up by exact ID (`WHERE id = ?1`). The `id`
column is the primary key, so at most one row matches; on a list store this
is the first entry with that ID. -/
def load (s : List StoreEntry) (box_id : String) : Option StoreEntry :=
  s.find? (fun e => e.id == box_id)

/-- Status strings of `list_active`'s SQL filter:
`WHERE s.status IN ('starting', 'running', 'detached')`. -/
def active_status_strings : List String := ["starting", "running", "detached"]

/-- `BoxStore::list_active`: rows whose stored status string is in the SQL
`IN` set. -/
def list_active (s : List StoreEntry) : List StoreEntry :=
  s.filter (fun e => active_status_strings.contains e.state.status.as_str)

/-- `BoxStore::update_state`: `UPDATE box_state ... WHERE id = ?4`, then the
Podman-pattern check that some row was affected, else `NotFound`. -/
def update_state (s : List StoreEntry) (box_id : String) (st : BoxState) :
    Except BoxliteError (List StoreEntry) :=
  if s.any (fun e => e.id == box_id) then
    .ok (s.map (fun e => if e.id == box_id then { e with state := st } else e))
  else
    .error (.notFound ("Box not found: " ++ box_id))

/-- Loop body of `BoxStore::reset_active_boxes_after_reboot`: walk the active
snapshot, reset each state for reboot, persist it, and collect the ID. -/
def reset_loop (now : Nat) :
    List StoreEntry → List StoreEntry → List String →
    Except BoxliteError (List String × List StoreEntry)
  | [], store, ids => .ok (ids, store)
  | e :: rest, store, ids =>
    match update_state store e.id (e.state.reset_for_reboot now) with
    | .error err => .error err
    | .ok store' => reset_loop now rest store' (ids ++ [e.id])

/-- `BoxStore::reset_active_boxes_after_reboot`. -/
def reset_active_boxes_after_reboot (s : List StoreEntry) (now : Nat) :
    Except BoxliteError (List String × List StoreEntry) :=
  reset_loop now (list_active s) s []

/-- The store after the reboot reset: every active box's state reset, every
other row untouched (the form claim C2 describes). -/
def resetStore (s : List StoreEntry) (now : Nat) : List StoreEntry :=
  s.map (fun e =>
    if e.state.status.is_active then { e with state := e.state.reset_for_reboot now }
    else e)

/-- The SQL status-string filter of `list_active` coincides with
`BoxStatus::is_active` (no status ever stores as `'detached'`). -/
theorem contains_as_str_eq_is_active (st : BoxStatus) :
    active_status_strings.contains st.as_str = st.is_active := by
  cases st <;> rfl

/-- Per-row form of the store midway through the reboot-reset loop: rows
whose IDs are still on the worklist `ids` are untouched, every other active
row has already been reset. -/
def pendingMap (now : Nat) (ids : List String) (u : StoreEntry) : StoreEntry :=
  if u.state.status.is_active = true ∧ u.id ∈ ids then u
  else if u.state.status.is_active then { u with state := u.state.reset_for_reboot now }
  else u

/-- `pendingMap` keeps the row ID. -/
theorem pendingMap_id (now : Nat) (ids : List String) (u : StoreEntry) :
    (pendingMap now ids u).id = u.id := by
  unfold pendingMap
  split
  · rfl
  split <;> rfl

/-- Removing a worklist ID different from the row's does not change
`pendingMap`. -/
theorem pendingMap_cons_ne (now : Nat) (i : String) (ids : List String)
    (u : StoreEntry) (h : u.id ≠ i) :
    pendingMap now (i :: ids) u = pendingMap now ids u := by
  unfold pendingMap
  have : (u.id ∈ i :: ids) ↔ u.id ∈ ids := by simp [h]
  simp only [this]

/-- `pendingMap` with an empty worklist is the fully reset row. -/
theorem pendingMap_nil (now : Nat) (u : StoreEntry) :
    pendingMap now [] u =
      if u.state.status.is_active then { u with state := u.state.reset_for_reboot now }
      else u := by
  unfold pendingMap
  simp

/-- Invariant of `reset_loop`: processing a duplicate-free worklist of active
rows of `s` against the partially-updated store ends in the fully reset
store, returning the accumulated IDs followed by the worklist IDs. -/
theorem reset_loop_spec (now : Nat) (s : List StoreEntry)
    (hnd : (s.map StoreEntry.id).Nodup) :
    ∀ (todo : List StoreEntry) (acc : List String),
      (∀ e ∈ todo, e ∈ s ∧ e.state.status.is_active = true) →
      (todo.map StoreEntry.id).Nodup →
      reset_loop now todo (s.map (pendingMap now (todo.map StoreEntry.id))) acc =
        .ok (acc ++ todo.map StoreEntry.id, resetStore s now) := by
  have hinj := List.inj_on_of_nodup_map hnd
  intro todo
  induction todo with
  | nil =>
    intro acc _ _
    simp only [List.map_nil]
    have h : s.map (pendingMap now []) = resetStore s now := by
      unfold resetStore
      refine List.map_congr_left ?_
      intro u _
      exact pendingMap_nil now u
    rw [h]
    simp [reset_loop]
  | cons e rest ih =>
    intro acc htodo hndtodo
    obtain ⟨hes, hea⟩ := htodo e (List.mem_cons_self e rest)
    have hnd' : (rest.map StoreEntry.id).Nodup ∧ e.id ∉ rest.map StoreEntry.id := by
      have := hndtodo
      simp only [List.map_cons, List.nodup_cons] at this
      exact ⟨this.2, this.1⟩
    have hany : (s.map (pendingMap now ((e :: rest).map StoreEntry.id))).any
        (fun u => u.id == e.id) = true := by
      rw [List.any_eq_true]
      refine ⟨pendingMap now ((e :: rest).map StoreEntry.id) e,
        List.mem_map_of_mem _ hes, ?_⟩
      rw [pendingMap_id]
      exact beq_self_eq_true e.id
    have hstep : update_state (s.map (pendingMap now ((e :: rest).map StoreEntry.id)))
        e.id (e.state.reset_for_reboot now) =
        .ok ((s.map (pendingMap now ((e :: rest).map StoreEntry.id))).map
          (fun u => if u.id == e.id then { u with state := e.state.reset_for_reboot now }
            else u)) := by
      simp only [update_state, hany, if_true]
    have hmap : (s.map (pendingMap now ((e :: rest).map StoreEntry.id))).map
        (fun u => if u.id == e.id then { u with state := e.state.reset_for_reboot now }
          else u) =
        s.map (pendingMap now (rest.map StoreEntry.id)) := by
      rw [List.map_map]
      refine List.map_congr_left ?_
      intro u hu
      simp only [Function.comp]
      by_cases hui : u.id = e.id
      · have hue : u = e := hinj hu hes hui
        subst hue
        have hA : pendingMap now ((u :: rest).map StoreEntry.id) u = u := by
          unfold pendingMap
          have : u.state.status.is_active = true ∧
              u.id ∈ (u :: rest).map StoreEntry.id := ⟨hea, by simp⟩
          simp [this]
        have hB : pendingMap now (rest.map StoreEntry.id) u =
            { u with state := u.state.reset_for_reboot now } := by
          unfold pendingMap
          rw [if_neg (fun hc => hnd'.2 hc.2), if_pos hea]
        rw [hA, hB]
        simp
      · have hne2 : ((pendingMap now ((e :: rest).map StoreEntry.id) u).id == e.id)
            = false := by
          rw [pendingMap_id]
          exact beq_eq_false_iff_ne.2 hui
        rw [if_neg (fun h => Bool.false_ne_true (hne2 ▸ h))]
        rw [List.map_cons]
        exact pendingMap_cons_ne now e.id (rest.map StoreEntry.id) u hui
    have hrec := ih (acc ++ [e.id])
      (fun x hx => htodo x (List.mem_cons_of_mem e hx)) hnd'.1
    calc reset_loop now (e :: rest)
          (s.map (pendingMap now ((e :: rest).map StoreEntry.id))) acc
        = reset_loop now rest (s.map (pendingMap now (rest.map StoreEntry.id)))
            (acc ++ [e.id]) := by
          rw [reset_loop, hstep, hmap]
      _ = .ok (acc ++ [e.id] ++ rest.map StoreEntry.id, resetStore s now) := hrec
      _ = .ok (acc ++ (e :: rest).map StoreEntry.id, resetStore s now) := by
          simp

/-- C2: with the store's IDs unique (the `id` column is the primary key),
`reset_active_boxes_after_reboot` succeeds, returns exactly the IDs of the
boxes whose status was active (Starting or Running), persists for each of
them the reset state (status `Stopped`, `pid = None`), leaves every
non-active row unchanged, and afterwards `list_active` returns the empty
list. -/
theorem claim_C2 (s : List StoreEntry) (now : Nat)
    (hnd : (s.map StoreEntry.id).Nodup) :
    reset_active_boxes_after_reboot s now =
      .ok ((list_active s).map StoreEntry.id, resetStore s now) ∧
    (list_active s).map StoreEntry.id =
      (s.filter (fun e => e.state.status.is_active)).map StoreEntry.id ∧
    (∀ e ∈ s, e.state.status.is_active = true →
      { e with state := e.state.reset_for_reboot now } ∈ resetStore s now ∧
      (e.state.reset_for_reboot now).status = .stopped ∧
      (e.state.reset_for_reboot now).pid = none) ∧
    (∀ e ∈ s, e.state.status.is_active = false → e ∈ resetStore s now) ∧
    list_active (resetStore s now) = [] := by
  have hfilter : list_active s = s.filter (fun e => e.state.status.is_active) := by
    unfold list_active
    congr 1
    funext e
    rw [contains_as_str_eq_is_active]
  refine ⟨?_, by rw [hfilter], ?_, ?_, ?_⟩
  · unfold reset_active_boxes_after_reboot
    have hinit : s = s.map (pendingMap now ((list_active s).map StoreEntry.id)) := by
      conv_lhs => rw [(List.map_id s).symm]
      refine List.map_congr_left ?_
      intro u hu
      unfold pendingMap
      by_cases ha : u.state.status.is_active = true
      · have hm : u.id ∈ (list_active s).map StoreEntry.id := by
          refine List.mem_map_of_mem _ ?_
          rw [hfilter]
          exact List.mem_filter.2 ⟨hu, ha⟩
        simp [ha, hm]
      · simp [ha]
    have hstart := reset_loop_spec now s hnd (list_active s) []
      (by
        intro e he
        rw [hfilter] at he
        exact ⟨(List.mem_filter.1 he).1, (List.mem_filter.1 he).2⟩)
      (by
        refine List.Nodup.sublist ?_ hnd
        exact List.Sublist.map _ (List.filter_sublist s))
    rw [← hinit] at hstart
    simpa using hstart
  · intro e he ha
    refine ⟨?_, ?_, rfl⟩
    · have := List.mem_map_of_mem (fun e =>
        if e.state.status.is_active then { e with state := e.state.reset_for_reboot now }
        else e) he
      simpa [resetStore, ha] using this
    · simp [BoxState.reset_for_reboot, ha]
  · intro e he ha
    have := List.mem_map_of_mem (fun e =>
      if e.state.status.is_active then { e with state := e.state.reset_for_reboot now }
      else e) he
    simpa [resetStore, ha] using this
  · unfold list_active
    rw [List.filter_eq_nil_iff]
    intro u hu
    rw [resetStore, List.mem_map] at hu
    obtain ⟨e, _, rfl⟩ := hu
    by_cases ha : e.state.status.is_active
    · have hst : (if e.state.status.is_active then
          { e with state := e.state.reset_for_reboot now } else e).state.status =
          .stopped := by
        simp [ha, BoxState.reset_for_reboot]
      rw [contains_as_str_eq_is_active, hst]
      simp [BoxStatus.is_active]
    · have hst : (if e.state.status.is_active then
          { e with state := e.state.reset_for_reboot now } else e).state.status =
          e.state.status := by
        simp [ha]
      rw [contains_as_str_eq_is_active, hst]
      simpa using ha

/-- Witness for C2 on a concrete two-box store: a running box with a PID and
a stopped box; the running one is reset, the stopped one untouched. -/
theorem claim_C2_witness :
    reset_active_boxes_after_reboot
      [{ id := "A", name := none,
         state := { status := .running, pid := some 7, container_id := none,
                    last_updated := 0 } },
       { id := "B", name := none,
         state := { status := .stopped, pid := none, container_id := none,
                    last_updated := 0 } }] 3 =
      .ok (["A"],
        [{ id := "A", name := none,
           state := { status := .stopped, pid := none, container_id := none,
                      last_updated := 3 } },
         { id := "B", name := none,
           state := { status := .stopped, pid := none, container_id := none,
                      last_updated := 0 } }]) := by
  have h := (claim_C2
    [{ id := "A", name := none,
       state := { status := .running, pid := some 7, container_id := none,
                  last_updated := 0 } },
     { id := "B", name := none,
       state := { status := .stopped, pid := none, container_id := none,
                  last_updated := 0 } }] 3 (by decide)).1
  rw [h]
  rfl

/-- Rust `str::starts_with`, modelled on the character lists underlying the
strings (structurally recursive so that concrete instances evaluate). -/
def str_starts_with (s pre : String) : Bool :=
  List.isPrefixOf pre.data s.data

/-- Message of the ambiguous-prefix error of `BoxManager::lookup_box`
(`format!("multiple boxes match prefix '{}': {:?}", ...)`, the debug list
rendered by `ToString`). -/
def multi_match_msg (q : String) (ids : List String) : String :=
  "multiple boxes match prefix '" ++ q ++ "': " ++ toString ids

/-- `BoxManager::lookup_box`: exact ID via `store.load`, then first exact
name match over `list_all`, then ID-prefix match — unique hit returned,
no hit is `None`, several hits are an `InvalidArgument` error naming the
matching IDs. -/
def lookup_box (s : List StoreEntry) (q : String) :
    Except BoxliteError (Option StoreEntry) :=
  match load s q with
  | some e => .ok (some e)
  | none =>
    match s.find? (fun e => e.name == some q) with
    | some e => .ok (some e)
    | none =>
      match s.filter (fun e => str_starts_with e.id q) with
      | [] => .ok none
      | [e] => .ok (some e)
      | ms => .error (.invalidArgument (multi_match_msg q (ms.map StoreEntry.id)))

/-- C5: with unique IDs (primary key) and unique names (enforced by
`add_box`), `lookup_box` resolves exact ID first, then exact name, then a
unique ID prefix; no match yields `None`, and two or more prefix matches
yield an `InvalidArgument` error listing the matching IDs without returning
a box. -/
theorem claim_C5 (s : List StoreEntry) (q : String)
    (hnd : (s.map StoreEntry.id).Nodup)
    (hname : ∀ u ∈ s, ∀ v ∈ s, ∀ n : String,
      u.name = some n → v.name = some n → u = v) :
    (∀ e ∈ s, e.id = q → lookup_box s q = .ok (some e)) ∧
    ((∀ e ∈ s, e.id ≠ q) →
      ∀ e ∈ s, e.name = some q → lookup_box s q = .ok (some e)) ∧
    ((∀ e ∈ s, e.id ≠ q) → (∀ e ∈ s, e.name ≠ some q) →
      (s.filter (fun e => str_starts_with e.id q) = [] → lookup_box s q = .ok none) ∧
      (∀ e, s.filter (fun e => str_starts_with e.id q) = [e] →
        lookup_box s q = .ok (some e)) ∧
      (2 ≤ (s.filter (fun e => str_starts_with e.id q)).length →
        lookup_box s q = .error (.invalidArgument (multi_match_msg q
          ((s.filter (fun e => str_starts_with e.id q)).map StoreEntry.id))))) := by
  have hinj := List.inj_on_of_nodup_map hnd
  refine ⟨?_, ?_, ?_⟩
  · intro e he heq
    have hsome : (s.find? (fun u => u.id == q)).isSome := by
      rw [List.find?_isSome]
      exact ⟨e, he, by simp [heq]⟩
    obtain ⟨u, hu⟩ := Option.isSome_iff_exists.1 hsome
    have hu_mem := List.mem_of_find?_eq_some hu
    have hu_id : u.id = q := by simpa using List.find?_some hu
    have hue : u = e := hinj hu_mem he (by rw [hu_id, heq])
    unfold lookup_box load
    rw [hu, hue]
  · intro hnoid e he hename
    have hload : s.find? (fun u => u.id == q) = none := by
      rw [List.find?_eq_none]
      intro x hx
      simpa using hnoid x hx
    have hsome : (s.find? (fun u => u.name == some q)).isSome := by
      rw [List.find?_isSome]
      exact ⟨e, he, by simp [hename]⟩
    obtain ⟨u, hu⟩ := Option.isSome_iff_exists.1 hsome
    have hu_mem := List.mem_of_find?_eq_some hu
    have hu_name : u.name = some q := by simpa using List.find?_some hu
    have hue : u = e := hname u hu_mem e he q hu_name hename
    unfold lookup_box load
    rw [hload, hu, hue]
  · intro hnoid hnoname
    have hload : s.find? (fun u => u.id == q) = none := by
      rw [List.find?_eq_none]
      intro x hx
      simpa using hnoid x hx
    have hfindname : s.find? (fun u => u.name == some q) = none := by
      rw [List.find?_eq_none]
      intro x hx
      simpa using hnoname x hx
    refine ⟨?_, ?_, ?_⟩
    · intro hfil
      unfold lookup_box load
      rw [hload, hfindname, hfil]
    · intro e hfil
      unfold lookup_box load
      rw [hload, hfindname, hfil]
    · intro hlen
      rcases hfa : s.filter (fun e => str_starts_with e.id q) with _ | ⟨a, _ | ⟨b, tl⟩⟩
      · rw [hfa] at hlen; simp at hlen
      · rw [hfa] at hlen; simp at hlen
      · unfold lookup_box load
        rw [hload, hfindname, hfa]

/-- Witness for C5 on a concrete two-box store: exact-ID lookup, exact-name
lookup, and an ambiguous two-match prefix. -/
theorem claim_C5_witness :
    lookup_box
      [{ id := "alpha1", name := some "web", state := BoxState.new 0 },
       { id := "alpha2", name := none, state := BoxState.new 0 }] "alpha1" =
      .ok (some { id := "alpha1", name := some "web", state := BoxState.new 0 }) ∧
    lookup_box
      [{ id := "alpha1", name := some "web", state := BoxState.new 0 },
       { id := "alpha2", name := none, state := BoxState.new 0 }] "web" =
      .ok (some { id := "alpha1", name := some "web", state := BoxState.new 0 }) ∧
    lookup_box
      [{ id := "alpha1", name := some "web", state := BoxState.new 0 },
       { id := "alpha2", name := none, state := BoxState.new 0 }] "alpha" =
      .error (.invalidArgument (multi_match_msg "alpha" ["alpha1", "alpha2"])) := by
  refine ⟨?_, ?_, ?_⟩
  · exact (claim_C5 _ "alpha1" (by decide) (by decide)).1 _ (by simp) rfl
  · exact (claim_C5 _ "web" (by decide) (by decide)).2.1 (by decide) _ (by simp) rfl
  · have h := ((claim_C5
      [{ id := "alpha1", name := some "web", state := BoxState.new 0 },
       { id := "alpha2", name := none, state := BoxState.new 0 }] "alpha"
      (by decide) (by decide)).2.2 (by decide) (by decide)).2.2 (by decide)
    simpa using h

/-- Allocation table of `InMemoryLockManager`: one `allocated` flag per
pre-allocated slot (the slot index is the `LockId`); the `locked` spinlock
flags and the `alloc_lock` mutex serialize access and carry no allocation
state. -/
abbrev MemLocks := List Bool

/-- Loop of `InMemoryLockManager::allocate`: scan slots in order, mark the
first unallocated one and return its index; `none` when every slot is
allocated. -/
def mem_alloc_loop : MemLocks → Option (Nat × MemLocks)
  | [] => none
  | b :: rest =>
    if b then
      match mem_alloc_loop rest with
      | some (i, rest') => some (i + 1, b :: rest')
      | none => none
    else
      some (0, true :: rest)

/-- `InMemoryLockManager::allocate`. -/
def mem_allocate (locks : MemLocks) : Except BoxliteError (Nat × MemLocks) :=
  match mem_alloc_loop locks with
  | some (i, locks') => .ok (i, locks')
  | none => .error (.lock "all locks are allocated")

/-- `InMemoryLockManager::allocate_and_retrieve`: out-of-range IDs are
invalid, already-allocated IDs fail, otherwise the slot is marked. -/
def mem_allocate_and_retrieve (locks : MemLocks) (id : Nat) :
    Except BoxliteError MemLocks :=
  if locks.length ≤ id then .error (.lock ("invalid lock id " ++ toString id))
  else if locks.getD id false then
    .error (.lock ("lock " ++ toString id ++ " is already allocated"))
  else .ok (locks.set id true)

/-- `InMemoryLockManager::free`: out-of-range IDs are invalid, freeing an
unallocated slot fails, otherwise the slot is cleared. -/
def mem_free (locks : MemLocks) (id : Nat) : Except BoxliteError MemLocks :=
  if locks.length ≤ id then .error (.lock ("invalid lock id " ++ toString id))
  else if locks.getD id false then .ok (locks.set id false)
  else .error (.lock ("lock " ++ toString id ++ " is not allocated"))

/-- What the allocation loop guarantees: the returned slot was unallocated,
exactly that slot is now set, and the table size is unchanged. -/
theorem mem_alloc_loop_spec :
    ∀ (locks : MemLocks) (i : Nat) (locks' : MemLocks),
      mem_alloc_loop locks = some (i, locks') →
      locks.getD i true = false ∧
      (∀ j d, locks'.getD j d = if j = i then true else locks.getD j d) ∧
      locks'.length = locks.length := by
  intro locks
  induction locks with
  | nil => intro i locks' h; simp [mem_alloc_loop] at h
  | cons b rest ih =>
    intro i locks' h
    by_cases hb : b = true
    · subst hb
      simp only [mem_alloc_loop, if_true] at h
      rcases hrec : mem_alloc_loop rest with _ | ⟨i', rest'⟩
      · rw [hrec] at h; simp at h
      · rw [hrec] at h
        simp only [Option.some.injEq, Prod.mk.injEq] at h
        obtain ⟨hi, hl⟩ := h
        obtain ⟨h1, h2, h3⟩ := ih i' rest' hrec
        subst hi hl
        refine ⟨by simpa using h1, ?_, by simpa using h3⟩
        intro j d
        cases j with
        | zero => simp
        | succ j' => simpa using h2 j' d
    · have hb' : b = false := by simpa using hb
      subst hb'
      unfold mem_alloc_loop at h
      rw [if_neg Bool.false_ne_true] at h
      simp only [Option.some.injEq, Prod.mk.injEq] at h
      obtain ⟨hi, hl⟩ := h
      subst hi hl
      refine ⟨by simp, ?_, by simp⟩
      intro j d
      cases j with
      | zero => simp
      | succ j' => simp

/-- A finite set of allocated lock IDs always leaves some ID unallocated. -/
theorem exists_unallocated (a : Finset ℕ) : ∃ n, n ∉ a := by
  refine ⟨a.sup id + 1, fun h => ?_⟩
  have := Finset.le_sup (f := id) h
  simp only [id_eq] at this
  omega

/-- `FileLockManager::next_available_id`: the loop `while allocated.contains
id { id += 1 }` starting at 0 returns the least unallocated ID. The
allocation state is the `allocated` set of lock-file IDs (file existence and
the tracked `HashSet` agree under the manager's own view). -/
def file_next_available_id (a : Finset ℕ) : ℕ :=
  Nat.find (exists_unallocated a)

/-- `FileLockManager::allocate`: create the lock file for the next available
ID (`O_EXCL` cannot collide, the ID is unallocated) and track it. -/
def file_allocate (a : Finset ℕ) : ℕ × Finset ℕ :=
  (file_next_available_id a, insert (file_next_available_id a) a)

/-- `FileLockManager::allocate_and_retrieve`: fails when the ID is already
allocated, otherwise creates and tracks it. -/
def file_allocate_and_retrieve (a : Finset ℕ) (id : ℕ) :
    Except BoxliteError (Finset ℕ) :=
  if id ∈ a then .error (.lock ("lock " ++ toString id ++ " is already allocated"))
  else .ok (insert id a)

/-- `FileLockManager::free`: fails when the ID is not tracked, otherwise
untracks it and removes the lock file. -/
def file_free (a : Finset ℕ) (id : ℕ) : Except BoxliteError (Finset ℕ) :=
  if id ∈ a then .ok (a.erase id)
  else .error (.lock ("lock " ++ toString id ++ " is not allocated"))

/-- C6: for any allocation state of either lock manager, `allocate` returns
an ID that is not currently allocated and marks it allocated; two `allocate`
calls with no intervening free never return the same ID; after a `free` the
freed ID can be handed out again (shown on the concrete scenarios of the
managers' own tests); and `allocate_and_retrieve(id)` fails exactly when
`id` is already allocated (or out of range for the fixed-size in-memory
manager). -/
theorem claim_C6 :
    (∀ (locks : MemLocks) (i : Nat) (locks' : MemLocks),
      mem_allocate locks = .ok (i, locks') →
      locks.getD i true = false ∧ locks'.getD i false = true) ∧
    (∀ (l0 : MemLocks) (i1 : Nat) (l1 : MemLocks) (i2 : Nat) (l2 : MemLocks),
      mem_allocate l0 = .ok (i1, l1) → mem_allocate l1 = .ok (i2, l2) →
      i1 ≠ i2) ∧
    (mem_free [true, true, true, true] 1 = .ok [true, false, true, true] ∧
      mem_allocate [true, false, true, true] = .ok (1, [true, true, true, true])) ∧
    (∀ (locks : MemLocks) (id : Nat),
      (∃ err, mem_allocate_and_retrieve locks id = .error err) ↔
        (locks.length ≤ id ∨ locks.getD id false = true)) ∧
    (∀ a : Finset ℕ,
      (file_allocate a).1 ∉ a ∧ (file_allocate a).1 ∈ (file_allocate a).2) ∧
    (∀ a : Finset ℕ, (file_allocate (file_allocate a).2).1 ≠ (file_allocate a).1) ∧
    (file_free {0, 1, 2} 1 = .ok (({0, 1, 2} : Finset ℕ).erase 1) ∧
      (file_allocate (({0, 1, 2} : Finset ℕ).erase 1)).1 = 1) ∧
    (∀ (a : Finset ℕ) (id : ℕ),
      (∃ err, file_allocate_and_retrieve a id = .error err) ↔ id ∈ a) := by
  have halloc : ∀ (locks : MemLocks) (i : Nat) (locks' : MemLocks),
      mem_allocate locks = .ok (i, locks') →
      locks.getD i true = false ∧
      (∀ j d, locks'.getD j d = if j = i then true else locks.getD j d) := by
    intro locks i locks' h
    unfold mem_allocate at h
    rcases hrec : mem_alloc_loop locks with _ | ⟨i', l'⟩
    · rw [hrec] at h; simp at h
    · rw [hrec] at h
      simp only [Except.ok.injEq, Prod.mk.injEq] at h
      obtain ⟨hi, hl⟩ := h
      subst hi hl
      exact ⟨(mem_alloc_loop_spec locks i' l' hrec).1,
        (mem_alloc_loop_spec locks i' l' hrec).2.1⟩
  refine ⟨?_, ?_, ?_, ?_, ?_, ?_, ?_, ?_⟩
  · intro locks i locks' h
    obtain ⟨h1, h2⟩ := halloc locks i locks' h
    refine ⟨h1, ?_⟩
    rw [h2 i false]
    simp
  · intro l0 i1 l1 i2 l2 h1 h2 hii
    obtain ⟨ha1, ha2⟩ := halloc l0 i1 l1 h1
    obtain ⟨hb1, _⟩ := halloc l1 i2 l2 h2
    rw [hii] at ha2
    rw [ha2 i2 true] at hb1
    simp at hb1
  · constructor
    · rfl
    · rfl
  · intro locks id
    unfold mem_allocate_and_retrieve
    by_cases hrange : locks.length ≤ id
    · rw [if_pos hrange]
      exact ⟨fun _ => Or.inl hrange, fun _ => ⟨_, rfl⟩⟩
    · rw [if_neg hrange]
      by_cases ha2 : locks.getD id false = true
      · rw [if_pos ha2]
        exact ⟨fun _ => Or.inr ha2, fun _ => ⟨_, rfl⟩⟩
      · rw [if_neg ha2]
        constructor
        · rintro ⟨err, herr⟩
          exact Except.noConfusion herr
        · rintro (hc | hc)
          · exact absurd hc hrange
          · exact absurd hc ha2
  · intro a
    exact ⟨Nat.find_spec (exists_unallocated a), Finset.mem_insert_self _ _⟩
  · intro a hEq
    have h2 : (file_allocate (file_allocate a).2).1 ∉ (file_allocate a).2 :=
      Nat.find_spec (exists_unallocated (file_allocate a).2)
    rw [hEq] at h2
    exact h2 (Finset.mem_insert_self _ _)
  · constructor
    · simp [file_free]
    · have h1 : (1 : ℕ) ∉ (({0, 1, 2} : Finset ℕ).erase 1) := by decide
      have h0 : ¬ (0 : ℕ) ∉ (({0, 1, 2} : Finset ℕ).erase 1) := by decide
      unfold file_allocate file_next_available_id
      rw [Nat.find_eq_iff]
      exact ⟨h1, by intro k hk; interval_cases k; exact h0⟩
  · intro a id
    unfold file_allocate_and_retrieve
    by_cases hmem : id ∈ a
    · simp [hmem]
    · simp [hmem]

/-- Witness for C6 at concrete inputs: allocation from a fresh two-slot
in-memory manager and from a file manager tracking `{0}`. -/
theorem claim_C6_witness :
    (([false, false] : MemLocks).getD 0 true = false ∧
      ([true, false] : MemLocks).getD 0 false = true) ∧
    (0 : Nat) ≠ 1 ∧
    ((file_allocate ({0} : Finset ℕ)).1 ∉ ({0} : Finset ℕ) ∧
      (file_allocate ({0} : Finset ℕ)).1 ∈ (file_allocate ({0} : Finset ℕ)).2) ∧
    ((∃ err, mem_allocate_and_retrieve [true] 0 = .error err) ↔
      (([true] : MemLocks).length ≤ 0 ∨ ([true] : MemLocks).getD 0 false = true)) := by
  refine ⟨?_, ?_, ?_, ?_⟩
  · exact claim_C6.1 [false, false] 0 [true, false] rfl
  · exact claim_C6.2.1 [false, false] 0 [true, false] 1 [true, true] rfl rfl
  · exact claim_C6.2.2.2.2.1 {0}
  · exact claim_C6.2.2.2.1 [true] 0

/-- Rust's `{:?}` rendering of a `BoxStatus` (derived `Debug`). -/
def BoxStatus.debug_str : BoxStatus → String
  | .unknown => "Unknown"
  | .starting => "Starting"
  | .running => "Running"
  | .stopping => "Stopping"
  | .stopped => "Stopped"

/-- One cached `BoxImpl` of the runtime's `SynchronizedState`
(`active_boxes_by_id` / `active_boxes_by_name`). Weak references are
modelled as live until `invalidate_box_impl` drops them; of the `BoxImpl`
we keep the fields the embedded operations read: ID, optional name, and the
status of its state. A named entry is in both maps, an unnamed one only in
the ID map, so one list with an optional name models the pair of maps. -/
structure CacheEntry where
  id : String
  name : Option String
  status : BoxStatus
  deriving Repr, DecidableEq

/-- Runtime state for `RuntimeInnerImpl`: the persistent store and the
in-memory cache. -/
structure RuntimeState where
  db : List StoreEntry
  cache : List CacheEntry
  deriving Repr, DecidableEq

/-- `BoxManager::lookup_box_id`: `lookup_box` mapped to the ID. -/
def lookup_box_id (s : List StoreEntry) (q : String) :
    Except BoxliteError (Option String) :=
  match lookup_box s q with
  | .ok r => .ok (r.map StoreEntry.id)
  | .error e => .error e

/-- `RuntimeInnerImpl::get_or_create_box_impl`: reuse a cached entry by name
(if named) or by ID, else insert a new one; the returned flag says whether a
new entry was inserted. -/
def get_or_create_box_impl (cache : List CacheEntry) (id : String)
    (name : Option String) (st : BoxStatus) : List CacheEntry × Bool :=
  match name with
  | some n =>
    if cache.any (fun c => c.name == some n) then (cache, false)
    else if cache.any (fun c => c.id == id) then (cache, false)
    else ({ id := id, name := some n, status := st } :: cache, true)
  | none =>
    if cache.any (fun c => c.id == id) then (cache, false)
    else ({ id := id, name := none, status := st } :: cache, true)

/-- `RuntimeInnerImpl::invalidate_box_impl`: drop the entry from the ID map
and (when named) from the name map. -/
def invalidate_box_impl (cache : List CacheEntry) (id : String)
    (name : Option String) : List CacheEntry :=
  cache.filter (fun c =>
    !(c.id == id) &&
      (match name with
       | some n => !(c.name == some n)
       | none => true))

/-- `RuntimeInnerImpl::create`: check the requested name against the store
via `lookup_box_id`, then insert into the cache via
`get_or_create_box_impl`; the new `BoxImpl` carries `BoxState::new()`
(status `Starting`). DB persistence is deferred to first use, so `create`
writes no store row. Returns the result together with the runtime state,
unchanged on every error path. -/
def create (rt : RuntimeState) (name : Option String) (fresh_id : String) :
    Except BoxliteError Unit × RuntimeState :=
  match name with
  | some n =>
    match lookup_box_id rt.db n with
    | .error e => (.error e, rt)
    | .ok (some _) =>
      (.error (.invalidArgument ("box with name '" ++ n ++ "' already exists")), rt)
    | .ok none =>
      match get_or_create_box_impl rt.cache fresh_id (some n) .starting with
      | (cache', true) => (.ok (), { rt with cache := cache' })
      | (_, false) =>
        (.error (.invalidArgument "box with this name already exists"), rt)
  | none =>
    match get_or_create_box_impl rt.cache fresh_id none .starting with
    | (cache', true) => (.ok (), { rt with cache := cache' })
    | (_, false) =>
      (.error (.invalidArgument "box with this name already exists"), rt)

/-- `RuntimeInnerImpl::remove_box`: boxes present in the store are removed
from it after the activity gate (force mode updates the row before deleting
it, which the deletion makes unobservable, so the update is elided); boxes
present only in the cache are dropped from it after the same gate. Lock
freeing and directory removal are filesystem effects outside this model. -/
def remove_box (rt : RuntimeState) (id : String) (force : Bool) :
    Except BoxliteError RuntimeState :=
  match load rt.db id with
  | some e =>
    if e.state.status.is_active && !force then
      .error (.invalidState ("cannot remove active box " ++ id ++ " (status: "
        ++ e.state.status.debug_str ++ "). Use force=true to stop first"))
    else
      .ok { db := rt.db.filter (fun u => !(u.id == id)),
            cache := invalidate_box_impl rt.cache id e.name }
  | none =>
    match rt.cache.find? (fun c => c.id == id) with
    | some ce =>
      if ce.status.is_active && !force then
        .error (.invalidState ("cannot remove active box " ++ id ++ " (status: "
          ++ ce.status.debug_str ++ "). Use force=true to stop first"))
      else
        .ok { rt with cache := invalidate_box_impl rt.cache id ce.name }
    | none => .error (.notFound ("Box not found: " ++ id))

/-- If some store row carries the name, `lookup_box` on it succeeds with a
box (helper for C7). -/
theorem lookup_box_some_of_name (s : List StoreEntry) (n : String)
    (h : ∃ e ∈ s, e.name = some n) : ∃ x, lookup_box s n = .ok (some x) := by
  unfold lookup_box
  rcases hload : load s n with _ | e0
  · have hsome : (s.find? (fun u => u.name == some n)).isSome := by
      rw [List.find?_isSome]
      obtain ⟨e, he, hen⟩ := h
      exact ⟨e, he, by simp [hen]⟩
    obtain ⟨u, hu⟩ := Option.isSome_iff_exists.1 hsome
    rw [hu]
    exact ⟨u, rfl⟩
  · exact ⟨e0, rfl⟩

/-- When no store row's ID equals, starts with, or is named `n`, `lookup_box`
finds nothing (helper for C7). -/
theorem lookup_box_none (s : List StoreEntry) (n : String)
    (hdb : ∀ e ∈ s, str_starts_with e.id n = false ∧ e.name ≠ some n) :
    lookup_box s n = .ok none := by
  have hload : load s n = none := by
    unfold load
    rw [List.find?_eq_none]
    intro x hx
    intro hbeq
    have hxid : x.id = n := by simpa using hbeq
    have : str_starts_with x.id n = true := by
      unfold str_starts_with
      rw [hxid]
      exact List.isPrefixOf_iff_prefix.2 (List.prefix_refl _)
    rw [(hdb x hx).1] at this
    cases this
  have hname : s.find? (fun u => u.name == some n) = none := by
    rw [List.find?_eq_none]
    intro x hx
    simpa using (hdb x hx).2
  have hfil : s.filter (fun e => str_starts_with e.id n) = [] := by
    rw [List.filter_eq_nil_iff]
    intro e he
    simp [(hdb e he).1]
  unfold lookup_box
  rw [hload, hname, hfil]

/-- `create` succeeds and caches the new box when the name matches no store
row (by ID, prefix, or name) and the cache holds neither the name nor the
fresh ID (helper for C7). -/
theorem create_success (rt : RuntimeState) (n fresh : String)
    (hdb : ∀ e ∈ rt.db, str_starts_with e.id n = false ∧ e.name ≠ some n)
    (hcname : rt.cache.any (fun c => c.name == some n) = false)
    (hcid : rt.cache.any (fun c => c.id == fresh) = false) :
    create rt (some n) fresh =
      (.ok (), { rt with cache :=
        { id := fresh, name := some n, status := .starting } :: rt.cache }) := by
  have hlook := lookup_box_none rt.db n hdb
  simp [create, lookup_box_id, hlook, get_or_create_box_impl, hcname, hcid]

/-- C7 counterexample: the name-uniqueness check of `create` runs through
`lookup_box_id`, which also matches ID prefixes. A store holding one box
with ID `"01HJK4TNRPQSXYZ8WM6NCVT9R1"` and no name rejects
`create(..., Some("01HJK4"))` with "already exists" although no box has that
name — the claim says a create with a name no existing box has succeeds. -/
theorem claim_C7_counterexample :
    create
      { db := [{ id := "01HJK4TNRPQSXYZ8WM6NCVT9R1", name := none,
                 state := BoxState.new 0 }], cache := [] }
      (some "01HJK4") "01HJK4TNRPQSXYZ8WM6NCVT9R2" =
      (.error (.invalidArgument "box with name '01HJK4' already exists"),
        { db := [{ id := "01HJK4TNRPQSXYZ8WM6NCVT9R1", name := none,
                   state := BoxState.new 0 }], cache := [] }) ∧
    (∀ e ∈ [({ id := "01HJK4TNRPQSXYZ8WM6NCVT9R1", name := none,
               state := BoxState.new 0 } : StoreEntry)],
      e.name ≠ some "01HJK4") := by
  exact ⟨rfl, by decide⟩

/-- C7 (amended): a `create` whose name some existing box already carries
(in the store or in the in-memory cache) fails with `InvalidArgument`
containing "already exists" and registers nothing; a `create` with a name
that no box has *and that neither equals nor prefixes any stored box's ID*
succeeds; and after removing the box with name `n` (no other row matching
`n`), a create with name `n` succeeds again. -/
theorem claim_C7 :
    (∀ (rt : RuntimeState) (n fresh : String),
      (∃ e ∈ rt.db, e.name = some n) →
      create rt (some n) fresh =
        (.error (.invalidArgument ("box with name '" ++ n ++ "' already exists")),
          rt) ∧
      "already exists".data <:+: ("box with name '" ++ n ++ "' already exists").data) ∧
    (∀ (rt : RuntimeState) (n fresh : String),
      lookup_box rt.db n = .ok none →
      rt.cache.any (fun c => c.name == some n) = true →
      create rt (some n) fresh =
        (.error (.invalidArgument "box with this name already exists"), rt) ∧
      "already exists".data <:+: "box with this name already exists".data) ∧
    (∀ (rt : RuntimeState) (n fresh : String),
      (∀ e ∈ rt.db, str_starts_with e.id n = false ∧ e.name ≠ some n) →
      rt.cache.any (fun c => c.name == some n) = false →
      rt.cache.any (fun c => c.id == fresh) = false →
      create rt (some n) fresh =
        (.ok (), { rt with cache :=
          { id := fresh, name := some n, status := .starting } :: rt.cache })) ∧
    (∀ (rt : RuntimeState) (n fresh : String) (e : StoreEntry),
      (rt.db.map StoreEntry.id).Nodup →
      e ∈ rt.db → e.name = some n → e.state.status.is_active = false →
      (∀ u ∈ rt.db, u.id ≠ e.id →
        str_starts_with u.id n = false ∧ u.name ≠ some n) →
      rt.cache.any (fun c => c.id == fresh) = false →
      ∃ rt', remove_box rt e.id false = .ok rt' ∧
        (create rt' (some n) fresh).1 = .ok ()) := by
  refine ⟨?_, ?_, ?_, ?_⟩
  · intro rt n fresh h
    obtain ⟨x, hx⟩ := lookup_box_some_of_name rt.db n h
    refine ⟨?_, ?_⟩
    · simp [create, lookup_box_id, hx]
    · refine List.IsSuffix.isInfix ?_
      refine ⟨("box with name '" ++ n ++ "' ").data, ?_⟩
      simp [String.data_append]
  · intro rt n fresh hlook hcache
    refine ⟨?_, ?_⟩
    · simp [create, lookup_box_id, hlook, get_or_create_box_impl, hcache]
    · exact List.IsSuffix.isInfix ⟨"box with this name ".data, by simp [String.data_append]⟩
  · intro rt n fresh hdb hcname hcid
    exact create_success rt n fresh hdb hcname hcid
  · intro rt n fresh e hnd he hen hact hothers hcid
    have hinj := List.inj_on_of_nodup_map hnd
    have hload : load rt.db e.id = some e := by
      have hsome : (rt.db.find? (fun u => u.id == e.id)).isSome := by
        rw [List.find?_isSome]
        exact ⟨e, he, by simp⟩
      obtain ⟨u, hu⟩ := Option.isSome_iff_exists.1 hsome
      have hu_mem := List.mem_of_find?_eq_some hu
      have hu_id : u.id = e.id := by simpa using List.find?_some hu
      have : u = e := hinj hu_mem he hu_id
      rw [this] at hu
      unfold load
      exact hu
    have hrem : remove_box rt e.id false =
        .ok { db := rt.db.filter (fun u => !(u.id == e.id)),
              cache := invalidate_box_impl rt.cache e.id e.name } := by
      unfold remove_box
      rw [hload]
      simp [hact]
    refine ⟨_, hrem, ?_⟩
    have hdone := create_success
      { db := rt.db.filter (fun u => !(u.id == e.id)),
        cache := invalidate_box_impl rt.cache e.id e.name } n fresh
      (by
        intro u hu
        obtain ⟨humem, hukeep⟩ := List.mem_filter.1 hu
        have : u.id ≠ e.id := by simpa using hukeep
        exact hothers u humem this)
      (by
        by_contra hcon
        rw [Bool.not_eq_false, List.any_eq_true] at hcon
        obtain ⟨c, hc, hcn⟩ := hcon
        obtain ⟨_, hckeep⟩ := List.mem_filter.1 hc
        rw [hen] at hckeep
        simp only [Bool.and_eq_true, Bool.not_eq_true'] at hckeep
        rw [hckeep.2] at hcn
        cases hcn)
      (by
        by_contra hcon
        rw [Bool.not_eq_false, List.any_eq_true] at hcon
        obtain ⟨c, hc, hcn⟩ := hcon
        obtain ⟨hcmem, _⟩ := List.mem_filter.1 hc
        have : rt.cache.any (fun c => c.id == fresh) = true := by
          rw [List.any_eq_true]
          exact ⟨c, hcmem, hcn⟩
        rw [hcid] at this
        cases this)
    rw [hdone]

/-- Witness for C7 at concrete inputs: a stored named box blocks a duplicate
create; a cached-only named box blocks it too; a fresh name is accepted;
remove-then-recreate succeeds. -/
theorem claim_C7_witness :
    (create { db := [{ id := "B1", name := some "web", state := BoxState.new 0 }],
              cache := [] } (some "web") "B2").1 =
      .error (.invalidArgument "box with name 'web' already exists") ∧
    (create { db := [],
              cache := [{ id := "B1", name := some "web", status := .starting }] }
      (some "web") "B2").1 =
      .error (.invalidArgument "box with this name already exists") ∧
    (create { db := [], cache := [] } (some "api") "B3") =
      (.ok (), { db := [],
                 cache := [{ id := "B3", name := some "api", status := .starting }] }) ∧
    (∃ rt', remove_box
        { db := [{ id := "B1", name := some "web",
                   state := (BoxState.new 0).set_status .stopped 1 }],
          cache := [] } "B1" false = .ok rt' ∧
      (create rt' (some "web") "B4").1 = .ok ()) := by
  refine ⟨?_, ?_, ?_, ?_⟩
  · rw [(claim_C7.1
      { db := [{ id := "B1", name := some "web", state := BoxState.new 0 }],
        cache := [] } "web" "B2"
      ⟨{ id := "B1", name := some "web", state := BoxState.new 0 },
        by simp, rfl⟩).1]
    rfl
  · rw [(claim_C7.2.1
      { db := [],
        cache := [{ id := "B1", name := some "web", status := .starting }] }
      "web" "B2" rfl rfl).1]
  · exact claim_C7.2.2.1 { db := [], cache := [] } "api" "B3"
      (by simp) rfl rfl
  · exact claim_C7.2.2.2
      { db := [{ id := "B1", name := some "web",
                 state := (BoxState.new 0).set_status .stopped 1 }], cache := [] }
      "web" "B4"
      { id := "B1", name := some "web",
        state := (BoxState.new 0).set_status .stopped 1 }
      (by decide) (by simp) rfl (by decide) (by decide) rfl

/-- Modelled from the spec: `Transport::vsock(port).to_uri()`.
`boxlite_shared::Transport` is not among the sources under verification;
spec §7 fixes the guest-side form `vsock://<PORT>`. -/
def vsock_uri (port : Nat) : String :=
  "vsock://" ++ toString port

/-- Does `pat` occur contiguously inside the character list? (Structurally
recursive so that concrete instances evaluate.) -/
def contains_chars (pat : List Char) : List Char → Bool
  | [] => pat.isPrefixOf []
  | c :: t => pat.isPrefixOf (c :: t) || contains_chars pat t

/-- `contains_chars` agrees with the infix relation. -/
theorem contains_chars_iff (pat l : List Char) :
    contains_chars pat l = true ↔ pat <:+: l := by
  induction l with
  | nil => simp [contains_chars, List.isPrefixOf_iff_prefix]
  | cons c t ih =>
    simp [contains_chars, List.isPrefixOf_iff_prefix, ih, List.infix_cons_iff]

/-- Rust `str::contains` for a literal pattern, on the underlying character
lists. -/
def str_contains (s pat : String) : Bool :=
  contains_chars pat.data s.data

/-- The pattern `format!("--{} unix://", arg_name)` both transforms search
for. -/
def unix_pattern (arg_name : String) : String :=
  "--" ++ arg_name ++ " unix://"

/-- Measure bound for the shell-scan recursion: skipping the pattern and the
following non-whitespace run shortens the input. -/
theorem shell_loop_measure (pr : Nat) (rest : List Char) :
    ((rest.drop pr).dropWhile (fun ch => !ch.isWhitespace)).length <
      rest.length + 1 := by
  have h1 : ((rest.drop pr).dropWhile (fun ch => !ch.isWhitespace)).length ≤
      (rest.drop pr).length := (List.dropWhile_sublist _).length_le
  have h2 : (rest.drop pr).length = rest.length - pr := by rw [List.length_drop]
  omega

/-- Character scan of `Krun::transform_shell_arg_unix_to_vsock`: wherever
the pattern `'-' :: pat_rest` starts, emit `repl` instead, skip the pattern
and the following non-whitespace path, and continue; otherwise copy the
character. Rust tracks byte positions, this model character positions; they
coincide on ASCII input (`input[pos..]` would in fact panic on the
non-ASCII inputs where they differ). -/
def transform_shell_loop (pat_rest repl : List Char) : List Char → List Char
  | [] => []
  | c :: rest =>
    if List.isPrefixOf ('-' :: pat_rest) (c :: rest) then
      repl ++ transform_shell_loop pat_rest repl
        ((rest.drop pat_rest.length).dropWhile (fun ch => !ch.isWhitespace))
    else
      c :: transform_shell_loop pat_rest repl rest
  termination_by l => l.length
  decreasing_by
  · simp only [List.length_cons]
    exact shell_loop_measure _ _
  · simp

/-- `Krun::transform_shell_arg_unix_to_vsock`: replace every
`--{arg_name} unix://<path>` inside a shell command string by
`--{arg_name} <vsock uri>`. The loop's pattern
`'-' :: ("-" ++ arg_name ++ " unix://").data` is exactly
`("--" ++ arg_name ++ " unix://").data`, with the leading `'-'` the Rust
code matches via `c == '-'`. -/
def transform_shell_arg_unix_to_vsock (input arg_name : String)
    (vsock_port : Nat) : String :=
  String.mk (transform_shell_loop ("-" ++ arg_name ++ " unix://").data
    ("--" ++ arg_name ++ " " ++ vsock_uri vsock_port).data input.data)

/-- `Krun::transform_arg_unix_to_vsock`: walk the argument vector; at the
first hit either rewrite the split pair `["--{arg_name}", "unix://…"]` or
rewrite the pattern inside a shell command string, then return (the Rust
loop `return`s after one transformation). -/
def transform_arg_unix_to_vsock (arg_name : String) (vsock_port : Nat) :
    List String → List String
  | [] => []
  | [a] =>
    if str_contains a (unix_pattern arg_name) then
      [transform_shell_arg_unix_to_vsock a arg_name vsock_port]
    else [a]
  | a :: b :: tl =>
    if a == "--" ++ arg_name && str_starts_with b "unix://" then
      a :: vsock_uri vsock_port :: tl
    else if str_contains a (unix_pattern arg_name) then
      transform_shell_arg_unix_to_vsock a arg_name vsock_port :: b :: tl
    else
      a :: transform_arg_unix_to_vsock arg_name vsock_port (b :: tl)

/-- `Krun::transform_guest_args`: rewrite `--listen` to the agent port and
`--notify` to the ready port. The port constants `GUEST_AGENT_PORT` and
`GUEST_READY_PORT` live in `boxlite_shared::constants::network`, outside
the sources under verification, so they are parameters of the model. -/
def transform_guest_args (agent_port ready_port : Nat)
    (guest_args : List String) : List String :=
  transform_arg_unix_to_vsock "notify" ready_port
    (transform_arg_unix_to_vsock "listen" agent_port guest_args)

/-- No occurrence of the pattern starts inside `seg` when `seg` is scanned
with continuation `t`. -/
def scan_clear (pat : List Char) : List Char → List Char → Bool
  | [], _ => true
  | c :: seg, t => !(List.isPrefixOf pat (c :: (seg ++ t))) && scan_clear pat seg t

/-- An argument the per-argument scan of `transform_arg_unix_to_vsock`
passes over: it is not the split flag and does not contain the shell
pattern. -/
def arg_inert (arg_name : String) (a : String) : Bool :=
  !(a == "--" ++ arg_name) && !(str_contains a (unix_pattern arg_name))

/-- The shell scan copies a segment in which no pattern occurrence starts. -/
theorem transform_shell_loop_append (pat_rest repl : List Char) :
    ∀ (seg t : List Char), scan_clear ('-' :: pat_rest) seg t = true →
      transform_shell_loop pat_rest repl (seg ++ t) =
        seg ++ transform_shell_loop pat_rest repl t := by
  intro seg
  induction seg with
  | nil => intro t _; simp
  | cons c seg' ih =>
    intro t h
    simp only [scan_clear, Bool.and_eq_true, Bool.not_eq_true'] at h
    rw [List.cons_append, transform_shell_loop,
      if_neg (fun hc => Bool.false_ne_true (h.1 ▸ hc)), ih t h.2]
    rfl

/-- The shell scan fires exactly at a pattern occurrence: it emits the
replacement and skips the pattern plus the following non-whitespace run. -/
theorem transform_shell_loop_hit (pat_rest repl rest : List Char) :
    transform_shell_loop pat_rest repl (('-' :: pat_rest) ++ rest) =
      repl ++ transform_shell_loop pat_rest repl
        (rest.dropWhile (fun ch => !ch.isWhitespace)) := by
  have hp : List.isPrefixOf ('-' :: pat_rest) ('-' :: (pat_rest ++ rest)) = true := by
    rw [List.isPrefixOf_iff_prefix, ← List.cons_append]
    exact List.prefix_append _ _
  rw [List.cons_append, transform_shell_loop, if_pos hp, List.drop_left]

/-- The shell scan is the identity on a pattern-free string. -/
theorem transform_shell_loop_clear (pat_rest repl l : List Char)
    (h : scan_clear ('-' :: pat_rest) l [] = true) :
    transform_shell_loop pat_rest repl l = l := by
  have happ := transform_shell_loop_append pat_rest repl l [] h
  have hnil : transform_shell_loop pat_rest repl [] = [] := by
    rw [transform_shell_loop]
  rw [List.append_nil] at happ
  rw [happ, hnil, List.append_nil]

/-- `dropWhile (not whitespace)` crosses a whitespace-free run and stops at
the following whitespace (or end of input). -/
theorem dropWhile_cross (p rest : List Char)
    (hp : p.all (fun ch => !ch.isWhitespace) = true)
    (hrest : rest = [] ∨ ∃ ch r0, rest = ch :: r0 ∧ ch.isWhitespace = true) :
    (p ++ rest).dropWhile (fun ch => !ch.isWhitespace) = rest := by
  induction p with
  | nil =>
    simp only [List.nil_append]
    rcases hrest with h | ⟨ch, r0, rfl, hws⟩
    · subst h; rfl
    · rw [List.dropWhile_cons, if_neg (by simp [hws])]
  | cons c p ih =>
    simp only [List.all_cons, Bool.and_eq_true] at hp
    rw [List.cons_append, List.dropWhile_cons, if_pos (by simp [hp.1])]
    exact ih hp.2

/-- The per-argument scan passes over a run of inert arguments. -/
theorem transform_arg_skip (nm : String) (port : Nat) :
    ∀ (l1 l2 : List String), (∀ a ∈ l1, arg_inert nm a = true) →
      transform_arg_unix_to_vsock nm port (l1 ++ l2) =
        l1 ++ transform_arg_unix_to_vsock nm port l2 := by
  intro l1
  induction l1 with
  | nil => intro l2 _; simp
  | cons a l1' ih =>
    intro l2 hin
    have ha := hin a (List.mem_cons_self a l1')
    unfold arg_inert at ha
    simp only [Bool.and_eq_true, Bool.not_eq_true'] at ha
    cases l1' with
    | nil =>
      cases l2 with
      | nil =>
        simp [transform_arg_unix_to_vsock, ha.2]
      | cons b tl =>
        simp [transform_arg_unix_to_vsock, ha.1, ha.2]
    | cons a2 l1'' =>
      have hrec := ih l2 (fun x hx => hin x (List.mem_cons_of_mem a hx))
      simp only [List.cons_append] at hrec ⊢
      simp [transform_arg_unix_to_vsock, ha.1, ha.2, hrec]

/-- The per-argument scan rewrites a split `--{nm} unix://…` pair in place
and stops. -/
theorem transform_arg_hit (nm : String) (port : Nat) (X : String)
    (tl : List String) :
    transform_arg_unix_to_vsock nm port
      (("--" ++ nm) :: ("unix://" ++ X) :: tl) =
      ("--" ++ nm) :: vsock_uri port :: tl := by
  have hcond : (("--" ++ nm == "--" ++ nm) &&
      str_starts_with ("unix://" ++ X) "unix://") = true := by
    rw [Bool.and_eq_true]
    refine ⟨beq_self_eq_true _, ?_⟩
    unfold str_starts_with
    rw [List.isPrefixOf_iff_prefix, String.data_append]
    exact List.prefix_append _ _
  rw [transform_arg_unix_to_vsock, if_pos hcond]

/-- The per-argument scan hands a lone shell-command argument containing the
pattern to the shell transform. -/
theorem transform_arg_shell (nm : String) (port : Nat) (s : String)
    (h : str_contains s (unix_pattern nm) = true) :
    transform_arg_unix_to_vsock nm port [s] =
      [transform_shell_arg_unix_to_vsock s nm port] := by
  rw [transform_arg_unix_to_vsock, if_pos h]

/-- C8 (split-argument half, stated as a standalone helper): in a vector
whose other arguments are inert, the split pairs `--listen unix://X` and
`--notify unix://Y` are rewritten to the two vsock URIs and nothing else
changes. -/
theorem transform_guest_args_split (agent ready : Nat)
    (pre mid post : List String) (X Y : String)
    (hpre : ∀ a ∈ pre, arg_inert "listen" a = true ∧ arg_inert "notify" a = true)
    (hmid : ∀ a ∈ mid, arg_inert "notify" a = true)
    (hva : arg_inert "notify" (vsock_uri agent) = true) :
    transform_guest_args agent ready
      (pre ++ "--listen" :: ("unix://" ++ X) ::
        (mid ++ "--notify" :: ("unix://" ++ Y) :: post)) =
    pre ++ "--listen" :: vsock_uri agent ::
      (mid ++ "--notify" :: vsock_uri ready :: post) := by
  unfold transform_guest_args
  have hL : transform_arg_unix_to_vsock "listen" agent
      (pre ++ "--listen" :: ("unix://" ++ X) ::
        (mid ++ "--notify" :: ("unix://" ++ Y) :: post)) =
      pre ++ "--listen" :: vsock_uri agent ::
        (mid ++ "--notify" :: ("unix://" ++ Y) :: post) := by
    rw [transform_arg_skip "listen" agent pre _ (fun a ha => (hpre a ha).1)]
    have hhit : transform_arg_unix_to_vsock "listen" agent
        ("--listen" :: ("unix://" ++ X) ::
          (mid ++ "--notify" :: ("unix://" ++ Y) :: post)) =
        "--listen" :: vsock_uri agent ::
          (mid ++ "--notify" :: ("unix://" ++ Y) :: post) :=
      transform_arg_hit "listen" agent X _
    rw [hhit]
  rw [hL]
  have hassoc : pre ++ "--listen" :: vsock_uri agent ::
      (mid ++ "--notify" :: ("unix://" ++ Y) :: post) =
      (pre ++ "--listen" :: vsock_uri agent :: mid) ++
        ("--notify" :: ("unix://" ++ Y) :: post) := by
    simp
  rw [hassoc]
  rw [transform_arg_skip "notify" ready
    (pre ++ "--listen" :: vsock_uri agent :: mid) _
    (by
      intro a ha
      rcases List.mem_append.1 ha with h | h
      · exact (hpre a h).2
      · rcases List.mem_cons.1 h with rfl | h
        · decide
        · rcases List.mem_cons.1 h with rfl | h
          · exact hva
          · exact hmid a h)]
  have hhitN : transform_arg_unix_to_vsock "notify" ready
      ("--notify" :: ("unix://" ++ Y) :: post) =
      "--notify" :: vsock_uri ready :: post :=
    transform_arg_hit "notify" ready Y post
  rw [hhitN]
  simp

/-- A full single-occurrence run of the shell scan: copy the clear prefix,
replace the pattern, skip the non-whitespace path, copy the clear rest. -/
theorem transform_shell_compute (pat_rest repl u p rest2 : List Char)
    (h1 : scan_clear ('-' :: pat_rest) u (('-' :: pat_rest) ++ (p ++ rest2)) = true)
    (hp : p.all (fun ch => !ch.isWhitespace) = true)
    (hrest2 : rest2 = [] ∨ ∃ ch r0, rest2 = ch :: r0 ∧ ch.isWhitespace = true)
    (hclear : scan_clear ('-' :: pat_rest) rest2 [] = true) :
    transform_shell_loop pat_rest repl (u ++ (('-' :: pat_rest) ++ (p ++ rest2))) =
      u ++ (repl ++ rest2) := by
  rw [transform_shell_loop_append _ _ u _ h1, transform_shell_loop_hit,
    dropWhile_cross p rest2 hp hrest2, transform_shell_loop_clear _ _ _ hclear]

/-- C8 (shell-string half, stated as a standalone helper): inside a
`-c "..."` string holding `--listen unix://<p1>` and later
`--notify unix://<p2>`, with the surrounding text free of further pattern
occurrences, both URIs are rewritten to the vsock URIs and the rest of the
string is unchanged. -/
theorem transform_guest_args_shell (agent ready : Nat) (pre : List String)
    (u v w p1 p2 : List Char)
    (hpre : ∀ a ∈ pre, arg_inert "listen" a = true ∧ arg_inert "notify" a = true)
    (h1 : scan_clear ("--listen unix://").data u
      (("--listen unix://").data ++
        (p1 ++ (v ++ (("--notify unix://").data ++ (p2 ++ w))))) = true)
    (hp1 : p1.all (fun ch => !ch.isWhitespace) = true)
    (hv : ∃ ch v0, v = ch :: v0 ∧ ch.isWhitespace = true)
    (h4 : scan_clear ("--listen unix://").data
      (v ++ (("--notify unix://").data ++ (p2 ++ w))) [] = true)
    (h5 : scan_clear ("--notify unix://").data
      (u ++ (("--listen " ++ vsock_uri agent).data ++ v))
      (("--notify unix://").data ++ (p2 ++ w)) = true)
    (hp2 : p2.all (fun ch => !ch.isWhitespace) = true)
    (hw : w = [] ∨ ∃ ch w0, w = ch :: w0 ∧ ch.isWhitespace = true)
    (h8 : scan_clear ("--notify unix://").data w [] = true) :
    transform_guest_args agent ready
      (pre ++ ["-c", String.mk (u ++ (("--listen unix://").data ++
        (p1 ++ (v ++ (("--notify unix://").data ++ (p2 ++ w))))))]) =
    pre ++ ["-c", String.mk (u ++ (("--listen " ++ vsock_uri agent).data ++
      (v ++ (("--notify " ++ vsock_uri ready).data ++ w))))] := by
  have hshellL : transform_shell_arg_unix_to_vsock
      (String.mk (u ++ (("--listen unix://").data ++
        (p1 ++ (v ++ (("--notify unix://").data ++ (p2 ++ w))))))) "listen" agent =
      String.mk (u ++ (("--listen " ++ vsock_uri agent).data ++
        (v ++ (("--notify unix://").data ++ (p2 ++ w))))) := by
    unfold transform_shell_arg_unix_to_vsock
    congr 1
    refine transform_shell_compute _ _ u p1
      (v ++ (("--notify unix://").data ++ (p2 ++ w))) h1 hp1 ?_ h4
    obtain ⟨ch, v0, rfl, hws⟩ := hv
    exact Or.inr ⟨ch, v0 ++ (("--notify unix://").data ++ (p2 ++ w)), rfl, hws⟩
  have hassoc1 : u ++ (("--listen " ++ vsock_uri agent).data ++
      (v ++ (("--notify unix://").data ++ (p2 ++ w)))) =
      (u ++ (("--listen " ++ vsock_uri agent).data ++ v)) ++
        (("--notify unix://").data ++ (p2 ++ w)) := by
    simp
  have hshellN : transform_shell_arg_unix_to_vsock
      (String.mk (u ++ (("--listen " ++ vsock_uri agent).data ++
        (v ++ (("--notify unix://").data ++ (p2 ++ w)))))) "notify" ready =
      String.mk (u ++ (("--listen " ++ vsock_uri agent).data ++
        (v ++ (("--notify " ++ vsock_uri ready).data ++ w)))) := by
    unfold transform_shell_arg_unix_to_vsock
    congr 1
    show transform_shell_loop ("-" ++ "notify" ++ " unix://").data
        ("--" ++ "notify" ++ " " ++ vsock_uri ready).data
        (u ++ (("--listen " ++ vsock_uri agent).data ++
          (v ++ (("--notify unix://").data ++ (p2 ++ w))))) =
      u ++ (("--listen " ++ vsock_uri agent).data ++
        (v ++ (("--notify " ++ vsock_uri ready).data ++ w)))
    rw [hassoc1]
    calc transform_shell_loop ("-" ++ "notify" ++ " unix://").data
          ("--" ++ "notify" ++ " " ++ vsock_uri ready).data
          ((u ++ (("--listen " ++ vsock_uri agent).data ++ v)) ++
            (("--notify unix://").data ++ (p2 ++ w)))
        = (u ++ (("--listen " ++ vsock_uri agent).data ++ v)) ++
            ((("--notify " ++ vsock_uri ready).data) ++ w) :=
          transform_shell_compute _ _ _ p2 w h5 hp2 hw h8
      _ = u ++ (("--listen " ++ vsock_uri agent).data ++
            (v ++ (("--notify " ++ vsock_uri ready).data ++ w))) := by simp
  have hcontL : str_contains
      (String.mk (u ++ (("--listen unix://").data ++
        (p1 ++ (v ++ (("--notify unix://").data ++ (p2 ++ w)))))))
      (unix_pattern "listen") = true := by
    show contains_chars ("--listen unix://").data
      (u ++ (("--listen unix://").data ++
        (p1 ++ (v ++ (("--notify unix://").data ++ (p2 ++ w)))))) = true
    rw [contains_chars_iff]
    exact ⟨u, p1 ++ (v ++ (("--notify unix://").data ++ (p2 ++ w))), by simp⟩
  have hcontN : str_contains
      (String.mk (u ++ (("--listen " ++ vsock_uri agent).data ++
        (v ++ (("--notify unix://").data ++ (p2 ++ w))))))
      (unix_pattern "notify") = true := by
    show contains_chars ("--notify unix://").data
      (u ++ (("--listen " ++ vsock_uri agent).data ++
        (v ++ (("--notify unix://").data ++ (p2 ++ w))))) = true
    rw [contains_chars_iff]
    exact ⟨u ++ (("--listen " ++ vsock_uri agent).data ++ v), p2 ++ w, by simp⟩
  unfold transform_guest_args
  have hargL : transform_arg_unix_to_vsock "listen" agent
      (pre ++ ["-c", String.mk (u ++ (("--listen unix://").data ++
        (p1 ++ (v ++ (("--notify unix://").data ++ (p2 ++ w))))))]) =
      pre ++ ["-c", String.mk (u ++ (("--listen " ++ vsock_uri agent).data ++
        (v ++ (("--notify unix://").data ++ (p2 ++ w)))))] := by
    rw [transform_arg_skip "listen" agent pre _ (fun a ha => (hpre a ha).1)]
    congr 1
    rw [transform_arg_unix_to_vsock,
      if_neg (by
        intro hc
        rw [(by decide : (("-c" : String) == "--" ++ "listen") = false),
          Bool.false_and] at hc
        exact Bool.false_ne_true hc),
      if_neg (by decide)]
    rw [transform_arg_shell "listen" agent _ hcontL, hshellL]
  have hargN : transform_arg_unix_to_vsock "notify" ready
      (pre ++ ["-c", String.mk (u ++ (("--listen " ++ vsock_uri agent).data ++
        (v ++ (("--notify unix://").data ++ (p2 ++ w)))))]) =
      pre ++ ["-c", String.mk (u ++ (("--listen " ++ vsock_uri agent).data ++
        (v ++ (("--notify " ++ vsock_uri ready).data ++ w))))] := by
    rw [transform_arg_skip "notify" ready pre _ (fun a ha => (hpre a ha).2)]
    congr 1
    rw [transform_arg_unix_to_vsock,
      if_neg (by
        intro hc
        rw [(by decide : (("-c" : String) == "--" ++ "notify") = false),
          Bool.false_and] at hc
        exact Bool.false_ne_true hc),
      if_neg (by decide)]
    rw [transform_arg_shell "notify" ready _ hcontN, hshellN]
  rw [hargL, hargN]

/-- C8: the VMM adapter's argument transformation rewrites
`--listen unix://X` to `--listen vsock://<GUEST_AGENT_PORT>` and
`--notify unix://Y` to `--notify vsock://<GUEST_READY_PORT>`, both as split
argument pairs and inside a shell-style `-c "..."` string, leaving all other
arguments (and surrounding string content) unchanged; the other material
must itself be free of the searched patterns, which the hypotheses state. -/
theorem claim_C8 :
    (∀ (agent ready : Nat) (pre mid post : List String) (X Y : String),
      (∀ a ∈ pre, arg_inert "listen" a = true ∧ arg_inert "notify" a = true) →
      (∀ a ∈ mid, arg_inert "notify" a = true) →
      arg_inert "notify" (vsock_uri agent) = true →
      transform_guest_args agent ready
        (pre ++ "--listen" :: ("unix://" ++ X) ::
          (mid ++ "--notify" :: ("unix://" ++ Y) :: post)) =
      pre ++ "--listen" :: vsock_uri agent ::
        (mid ++ "--notify" :: vsock_uri ready :: post)) ∧
    (∀ (agent ready : Nat) (pre : List String) (u v w p1 p2 : List Char),
      (∀ a ∈ pre, arg_inert "listen" a = true ∧ arg_inert "notify" a = true) →
      scan_clear ("--listen unix://").data u
        (("--listen unix://").data ++
          (p1 ++ (v ++ (("--notify unix://").data ++ (p2 ++ w))))) = true →
      p1.all (fun ch => !ch.isWhitespace) = true →
      (∃ ch v0, v = ch :: v0 ∧ ch.isWhitespace = true) →
      scan_clear ("--listen unix://").data
        (v ++ (("--notify unix://").data ++ (p2 ++ w))) [] = true →
      scan_clear ("--notify unix://").data
        (u ++ (("--listen " ++ vsock_uri agent).data ++ v))
        (("--notify unix://").data ++ (p2 ++ w)) = true →
      p2.all (fun ch => !ch.isWhitespace) = true →
      (w = [] ∨ ∃ ch w0, w = ch :: w0 ∧ ch.isWhitespace = true) →
      scan_clear ("--notify unix://").data w [] = true →
      transform_guest_args agent ready
        (pre ++ ["-c", String.mk (u ++ (("--listen unix://").data ++
          (p1 ++ (v ++ (("--notify unix://").data ++ (p2 ++ w))))))]) =
      pre ++ ["-c", String.mk (u ++ (("--listen " ++ vsock_uri agent).data ++
        (v ++ (("--notify " ++ vsock_uri ready).data ++ w))))]) := by
  constructor
  · intro agent ready pre mid post X Y hpre hmid hva
    exact transform_guest_args_split agent ready pre mid post X Y hpre hmid hva
  · intro agent ready pre u v w p1 p2 hpre h1 hp1 hv h4 h5 hp2 hw h8
    exact transform_guest_args_shell agent ready pre u v w p1 p2
      hpre h1 hp1 hv h4 h5 hp2 hw h8

/-- Witness for C8 at concrete inputs (the ports of the source's comments,
2695/2696): a split-argument vector and a `-c` shell string, both holding a
`--listen` and a `--notify` Unix URI. -/
theorem claim_C8_witness :
    transform_guest_args 2695 2696
      ["boxlite-guest", "--listen", "unix://" ++ "/tmp/agent.sock",
        "--notify", "unix://" ++ "/tmp/ready.sock"] =
      ["boxlite-guest", "--listen", vsock_uri 2695,
        "--notify", vsock_uri 2696] ∧
    transform_guest_args 2695 2696
      ["/bin/sh", "-c", String.mk (("boxlite-guest ").data ++
        (("--listen unix://").data ++ (("/tmp/a.sock").data ++
          ((" ").data ++ (("--notify unix://").data ++
            (("/tmp/b.sock").data ++ []))))))] =
      ["/bin/sh", "-c", String.mk (("boxlite-guest ").data ++
        (("--listen " ++ vsock_uri 2695).data ++
          ((" ").data ++ (("--notify " ++ vsock_uri 2696).data ++ []))))] := by
  constructor
  · exact claim_C8.1 2695 2696 ["boxlite-guest"] [] []
      "/tmp/agent.sock" "/tmp/ready.sock" (by decide) (by decide) (by decide)
  · exact claim_C8.2 2695 2696 ["/bin/sh"]
      ("boxlite-guest ").data (" ").data [] ("/tmp/a.sock").data ("/tmp/b.sock").data
      (by decide) (by decide) (by decide) ⟨' ', [], rfl, by decide⟩
      (by decide) (by decide) (by decide) (Or.inl rfl) (by decide)

end Boxlite
